import Mathlib

/-!
The event fixture seeder `init-event-data.js`.

A shallow embedding of `src/init-event-data.js`, a mongosh script that clears four
collections, inserts one event, three missions and five rewards, prints a summary and
reads the data back.

Modelling decisions.

* A BSON scalar is a `Scalar`; a numeric literal is kept as the decimal written in the
  source (`0.05` is mantissa 5, scale 2), so no binary floating point is involved.
  A document is an ordered list of fields; a field holds a scalar or one embedded
  document of scalars (enough for `{ $ref: ..., $id: ... }`).
* A collection is the list of its documents in insertion order.  The order in which
  a scan returns them is up to the store (`Env.scanRank`): only a query with `.sort`
  has a result order of its own.
* The document store is outside the script.  What the script cannot control is
  gathered in `Env`: the wall clock read by each `new Date()`, the counter from which
  the shell derives fresh ObjectIds, and which store operations are refused.  The ten
  store operations of the script are numbered 0..9 in program order.
* An uncaught exception ends the script, as for any JavaScript program: statements
  after a failed store operation are not executed, and the store keeps what was
  written before.  A failed bulk write may have written some of its documents.
* ObjectIds come from a counter, so the ids generated within one run differ from each
  other; that they differ from ids already in the store is stated where it matters.
* `print` appends one line to the output; the operands of a string concatenation are
  kept as unformatted pieces.
-/

namespace InitEventData

/-! ## Documents -/

/-- A BSON scalar value. -/
inductive Scalar where
  | null
  | bool (b : Bool)
  | num (mantissa : Int) (scale : Nat)
  | str (s : String)
  | date (ms : Int)
  | objectId (n : Nat)
  deriving DecidableEq, Repr

/-- A field value: a scalar or an embedded document of scalars. -/
inductive Value where
  | scalar (s : Scalar)
  | embedded (fields : List (String × Scalar))
  deriving DecidableEq, Repr

/-- A document: its fields in order. -/
abbrev Doc := List (String × Value)

/-- The field `key` of an association list, `none` when absent. -/
def field {α : Type} (key : String) : List (String × α) → Option α
  | [] => none
  | (k, v) :: rest => if k = key then some v else field key rest

/-- The rational number a decimal literal stands for. -/
def decimal (mantissa : Int) (scale : Nat) : ℚ := (mantissa : ℚ) / (10 : ℚ) ^ scale

/-- Numeric comparison of two decimals, by cross multiplication. -/
def numLe (m₁ : Int) (s₁ : Nat) (m₂ : Int) (s₂ : Nat) : Bool :=
  decide (m₁ * 10 ^ s₂ ≤ m₂ * 10 ^ s₁)

/-- Numeric equality of two decimals. -/
def numEq (m₁ : Int) (s₁ : Nat) (m₂ : Int) (s₂ : Nat) : Bool :=
  decide (m₁ * 10 ^ s₂ = m₂ * 10 ^ s₁)

/-- Equality of scalars as a query sees it: numbers by value, the rest structurally. -/
def Scalar.same : Scalar → Scalar → Bool
  | .num m₁ s₁, .num m₂ s₂ => numEq m₁ s₁ m₂ s₂
  | a, b => decide (a = b)

/-- The scalar at a path of one or two segments (`_id`, `eventId.$id`). -/
def atPath (d : Doc) : List String → Option Scalar
  | [k] =>
    match field k d with
    | some (.scalar s) => some s
    | _ => none
  | [k, k'] =>
    match field k d with
    | some (.embedded fs) => field k' fs
    | _ => none
  | _ => none

/-- An equality filter `{ path: v }`: the field at `path` equals `v`; a `null` operand
also selects documents without the field. -/
def matchesEq (path : List String) (v : Scalar) (d : Doc) : Bool :=
  match atPath d path with
  | some s => s.same v
  | none => decide (v = .null)

/-! ## BSON sort order -/

/-- The rank of a type in the BSON comparison order; an absent field ranks as null. -/
def typeRank : Option Value → Nat
  | none => 1
  | some (.scalar .null) => 1
  | some (.scalar (.num _ _)) => 2
  | some (.scalar (.str _)) => 3
  | some (.embedded _) => 4
  | some (.scalar (.objectId _)) => 7
  | some (.scalar (.bool _)) => 8
  | some (.scalar (.date _)) => 9

/-- Order of two scalars of the same type. -/
def Scalar.le : Scalar → Scalar → Bool
  | .num m₁ s₁, .num m₂ s₂ => numLe m₁ s₁ m₂ s₂
  | .str a, .str b => decide (a ≤ b)
  | .objectId a, .objectId b => decide (a ≤ b)
  | .bool a, .bool b => !a || b
  | .date a, .date b => decide (a ≤ b)
  | _, _ => true

/-- Order of embedded documents: field by field, comparing value type, then field
name, then value; a document that runs out first is smaller. -/
def fieldsLe : List (String × Scalar) → List (String × Scalar) → Bool
  | [], _ => true
  | _ :: _, [] => false
  | (k₁, v₁) :: r₁, (k₂, v₂) :: r₂ =>
    let t₁ := typeRank (some (.scalar v₁))
    let t₂ := typeRank (some (.scalar v₂))
    if t₁ ≠ t₂ then decide (t₁ < t₂)
    else if k₁ ≠ k₂ then decide (k₁ < k₂)
    else if v₁.same v₂ then fieldsLe r₁ r₂
    else v₁.le v₂

/-- Order of two sort keys (field values, `none` when the field is absent). -/
def keyLe (a b : Option Value) : Bool :=
  if typeRank a ≠ typeRank b then decide (typeRank a < typeRank b)
  else
    match a, b with
    | some (.scalar x), some (.scalar y) => x.le y
    | some (.embedded x), some (.embedded y) => fieldsLe x y
    | _, _ => true

/-- Insert a document into a list sorted ascending on `key`, after its equals. -/
def sortInsert (key : String) (d : Doc) : List Doc → List Doc
  | [] => [d]
  | e :: rest =>
    if keyLe (field key e) (field key d) then e :: sortInsert key d rest
    else d :: e :: rest

/-- The cursor method `sort({ key: 1 })`: a stable ascending sort on one field. -/
def sortAsc (key : String) (docs : List Doc) : List Doc :=
  docs.foldl (fun acc d => sortInsert key d acc) []

/-! ## The store -/

/-- The four collections the script touches. -/
inductive Coll where
  | events
  | event_missions
  | event_rewards
  | event_participations
  deriving DecidableEq, Repr

/-- The database: each collection with its documents in insertion order. -/
structure Store where
  events : List Doc
  event_missions : List Doc
  event_rewards : List Doc
  event_participations : List Doc
  deriving DecidableEq, Repr

/-- The documents of a collection. -/
def Store.coll (db : Store) : Coll → List Doc
  | .events => db.events
  | .event_missions => db.event_missions
  | .event_rewards => db.event_rewards
  | .event_participations => db.event_participations

/-- Replace the documents of a collection. -/
def Store.setColl (db : Store) (c : Coll) (docs : List Doc) : Store :=
  match c with
  | .events => { db with events := docs }
  | .event_missions => { db with event_missions := docs }
  | .event_rewards => { db with event_rewards := docs }
  | .event_participations => { db with event_participations := docs }

/-- The name a collection goes by in a reference. -/
def Coll.name : Coll → String
  | .events => "events"
  | .event_missions => "event_missions"
  | .event_rewards => "event_rewards"
  | .event_participations => "event_participations"

/-! ## The shell -/

/-- What the script does not control. -/
structure Env where
  /-- The wall clock as read by the k-th `new Date()` of the script, in milliseconds. -/
  now : Nat → Int
  /-- The counter the shell starts generating ObjectIds from. -/
  oidSeed : Nat
  /-- The fate of store operation `op`: `none` when it is carried out, `some k` when
  the store fails it after `k` documents have been processed. -/
  fault : Nat → Option Nat
  /-- The place the store gives a document in its natural order.  A scan returns the
  documents of a collection by ascending rank; the store promises nothing about it. -/
  scanRank : Doc → Nat

/-- An uncaught exception of the script. -/
inductive ShellError where
  | storeFault (op : Nat)
  | duplicateKey (c : Coll) (id : Scalar)
  deriving DecidableEq, Repr

/-- One operand of the string concatenation handed to `print`. -/
inductive Piece where
  | text (s : String)
  | scalar (s : Scalar)
  | undefined
  | prop (v : Option Value)
  | product (v : Option Value) (k : Int)
  | json (d : Option Doc)
  deriving DecidableEq, Repr

/-- One printed line. -/
abbrev Line := List Piece

/-- The state a statement runs in: the database, the lines printed so far and the
ObjectId counter of the shell. -/
structure World where
  db : Store
  stdout : List Line
  nextOid : Nat
  deriving DecidableEq, Repr

/-- A statement: it ends normally with a value or throws, and leaves a world behind
in both cases. -/
def Shell (α : Type) : Type := World → Except ShellError α × World

/-- Run a statement in a world. -/
def Shell.exec {α : Type} (m : Shell α) (w : World) : Except ShellError α × World := m w

/-- Sequencing: a throw skips the rest. -/
def Shell.andThen {α β : Type} (m : Shell α) (f : α → Shell β) : Shell β := fun w =>
  match m w with
  | (.ok a, w') => f a w'
  | (.error e, w') => (.error e, w')

instance : Monad Shell where
  pure a := fun w => (.ok a, w)
  bind := Shell.andThen

/-- The shell function `print`. -/
def print (line : Line) : Shell Unit := fun w =>
  (.ok (), { w with stdout := w.stdout ++ [line] })

/-- Remove the first `k` documents selected by `p`. -/
def removeFirst (p : Doc → Bool) : Nat → List Doc → List Doc
  | 0, docs => docs
  | _ + 1, [] => []
  | k + 1, d :: rest => if p d then removeFirst p k rest else d :: removeFirst p (k + 1) rest

/-- The collection method `deleteMany(filter)`. -/
def deleteMany (env : Env) (op : Nat) (c : Coll) (filter : Doc → Bool) : Shell Unit := fun w =>
  match env.fault op with
  | none => (.ok (), { w with db := w.db.setColl c ((w.db.coll c).filter (fun d => !filter d)) })
  | some k => (.error (.storeFault op), { w with db := w.db.setColl c (removeFirst filter k (w.db.coll c)) })

/-- The `_id` of a document about to be written (`null` when it has none). -/
def idOf (d : Doc) : Scalar := (atPath d ["_id"]).getD .null

/-- Give each document lacking one an `_id` drawn from the counter. -/
def assignIds : Nat → List Doc → List Doc × Nat
  | n, [] => ([], n)
  | n, d :: rest =>
    match field "_id" d with
    | some _ => let r := assignIds n rest; (d :: r.1, r.2)
    | none => let r := assignIds (n + 1) rest; ((("_id", .scalar (.objectId n)) :: d) :: r.1, r.2)

/-- Write documents one after the other (an ordered bulk write): the first one whose
`_id` is already taken stops the write, the earlier ones stay. -/
def writeOrdered (c : Coll) : List Doc → List Doc → Except ShellError Unit × List Doc
  | existing, [] => (.ok (), existing)
  | existing, d :: rest =>
    if existing.any (matchesEq ["_id"] (idOf d)) then (.error (.duplicateKey c (idOf d)), existing)
    else writeOrdered c (existing ++ [d]) rest

/-- The result of `insertOne`. -/
structure InsertOneResult where
  insertedId : Scalar
  deriving DecidableEq, Repr

/-- The result of `insertMany`: the ids keyed by position. -/
structure InsertManyResult where
  insertedIds : List (Nat × Scalar)
  deriving DecidableEq, Repr

/-- Pair each element with its position. -/
def indexed {α : Type} : Nat → List α → List (Nat × α)
  | _, [] => []
  | i, a :: rest => (i, a) :: indexed (i + 1) rest

/-- The collection method `insertMany(docs)`. -/
def insertMany (env : Env) (op : Nat) (c : Coll) (docs : List Doc) : Shell InsertManyResult := fun w =>
  let a := assignIds w.nextOid docs
  match env.fault op with
  | none =>
    match writeOrdered c (w.db.coll c) a.1 with
    | (.ok _, docs') =>
      (.ok ⟨indexed 0 (a.1.map idOf)⟩, { w with db := w.db.setColl c docs', nextOid := a.2 })
    | (.error e, docs') => (.error e, { w with db := w.db.setColl c docs', nextOid := a.2 })
  | some k =>
    match writeOrdered c (w.db.coll c) (a.1.take k) with
    | (.ok _, docs') =>
      (.error (.storeFault op), { w with db := w.db.setColl c docs', nextOid := a.2 })
    | (.error e, docs') => (.error e, { w with db := w.db.setColl c docs', nextOid := a.2 })

/-- The collection method `insertOne(doc)`. -/
def insertOne (env : Env) (op : Nat) (c : Coll) (doc : Doc) : Shell InsertOneResult := fun w =>
  let a := assignIds w.nextOid [doc]
  match env.fault op with
  | none =>
    match writeOrdered c (w.db.coll c) a.1 with
    | (.ok _, docs') =>
      (.ok ⟨((a.1.map idOf).head?).getD .null⟩, { w with db := w.db.setColl c docs', nextOid := a.2 })
    | (.error e, docs') => (.error e, { w with db := w.db.setColl c docs', nextOid := a.2 })
  | some _ => (.error (.storeFault op), { w with nextOid := a.2 })

/-- Insert a document into a list ordered by ascending rank. -/
def scanInsert (rank : Doc → Nat) (d : Doc) : List Doc → List Doc
  | [] => [d]
  | e :: rest =>
    if rank e ≤ rank d then e :: scanInsert rank d rest
    else d :: e :: rest

/-- The order in which a scan returns the documents of a collection: by the rank the
store gives them, whatever the order they were inserted in. -/
def naturalOrder (rank : Doc → Nat) (docs : List Doc) : List Doc :=
  docs.foldl (fun acc d => scanInsert rank d acc) []

/-- The collection method `findOne({ path: v })`: the first match of a scan or `null`. -/
def findOne (env : Env) (op : Nat) (c : Coll) (path : List String) (v : Scalar) :
    Shell (Option Doc) := fun w =>
  match env.fault op with
  | none => (.ok ((naturalOrder env.scanRank (w.db.coll c)).find? (matchesEq path v)), w)
  | some _ => (.error (.storeFault op), w)

/-- The query `find({ path: v })`, read to the end: the matches of a scan, sorted when
`.sort({ key: 1 })` is given (`sortKey`), in the order of the scan when it is not. -/
def find (env : Env) (op : Nat) (c : Coll) (path : List String) (v : Scalar)
    (sortKey : Option String) : Shell (List Doc) := fun w =>
  match env.fault op with
  | none =>
    let hits := (naturalOrder env.scanRank (w.db.coll c)).filter (matchesEq path v)
    (.ok (match sortKey with
          | some key => sortAsc key hits
          | none => hits), w)
  | some _ => (.error (.storeFault op), w)

/-- The cursor method `forEach`. -/
def forEach (f : Doc → Shell Unit) : List Doc → Shell Unit
  | [] => pure ()
  | d :: rest => Shell.andThen (f d) (fun _ => forEach f rest)

/-! ## The script -/

/-- A reference `{ $ref: "events", $id: eventId }` to the owning event. -/
def eventRef (eventId : Scalar) : Value :=
  .embedded [("$ref", .str "events"), ("$id", eventId)]

/-- The event document of line 13. -/
def eventDoc (env : Env) : Doc :=
  [ ("name", .scalar (.str "CoShow 2024 부스 이벤트")),
    ("description", .scalar (.str "버스 버디버디 부스를 방문하고 미션을 완료하여 푸짐한 경품을 받아가세요!")),
    ("startDate", .scalar (.date 1730937600000)),
    ("endDate", .scalar (.date 1735689599000)),
    ("isActive", .scalar (.bool true)),
    ("organizationId", .scalar (.str "ORG001")),
    ("createdAt", .scalar (.date (env.now 0))),
    ("updatedAt", .scalar (.date (env.now 1))) ]

/-- The array `missions` of line 28. -/
def missions (env : Env) (eventId : Scalar) : List Doc :=
  [ [ ("eventId", eventRef eventId),
      ("title", .scalar (.str "특정 버스 탑승하기")),
      ("description", .scalar (.str "5001번 버스를 타고 목적지까지 이동하세요")),
      ("missionType", .scalar (.str "BOARDING")),
      ("targetValue", .scalar (.str "5001")),
      ("isRequired", .scalar (.bool true)),
      ("order", .scalar (.num 1 0)),
      ("createdAt", .scalar (.date (env.now 2))) ],
    [ ("eventId", eventRef eventId),
      ("title", .scalar (.str "특정 정류장 방문하기")),
      ("description", .scalar (.str "CoShow 전시장 정류장을 방문하세요")),
      ("missionType", .scalar (.str "VISIT_STATION")),
      ("targetValue", .scalar (.str "STATION_COSHOW")),
      ("isRequired", .scalar (.bool true)),
      ("order", .scalar (.num 2 0)),
      ("createdAt", .scalar (.date (env.now 3))) ],
    [ ("eventId", eventRef eventId),
      ("title", .scalar (.str "자동 승하차 감지 완료")),
      ("description", .scalar (.str "버스에 탑승하여 자동 승하차 감지 기능을 체험하세요")),
      ("missionType", .scalar (.str "AUTO_DETECT_BOARDING")),
      ("targetValue", .scalar .null),
      ("isRequired", .scalar (.bool true)),
      ("order", .scalar (.num 3 0)),
      ("createdAt", .scalar (.date (env.now 4))) ] ]

/-- The array `rewards` of line 65. -/
def rewards (env : Env) (eventId : Scalar) : List Doc :=
  [ [ ("eventId", eventRef eventId),
      ("rewardName", .scalar (.str "AirPods Pro 2세대")),
      ("rewardGrade", .scalar (.num 1 0)),
      ("probability", .scalar (.num 5 2)),
      ("totalQuantity", .scalar (.num 5 0)),
      ("remainingQuantity", .scalar (.num 5 0)),
      ("imageUrl", .scalar (.str "https://example.com/airpods-pro.jpg")),
      ("description", .scalar (.str "최신 노이즈 캔슬링 무선 이어폰")),
      ("createdAt", .scalar (.date (env.now 5))),
      ("updatedAt", .scalar (.date (env.now 6))) ],
    [ ("eventId", eventRef eventId),
      ("rewardName", .scalar (.str "스타벅스 기프티콘 3만원")),
      ("rewardGrade", .scalar (.num 2 0)),
      ("probability", .scalar (.num 10 2)),
      ("totalQuantity", .scalar (.num 10 0)),
      ("remainingQuantity", .scalar (.num 10 0)),
      ("imageUrl", .scalar (.str "https://example.com/starbucks-30k.jpg")),
      ("description", .scalar (.str "스타벅스 모바일 기프트카드 3만원권")),
      ("createdAt", .scalar (.date (env.now 7))),
      ("updatedAt", .scalar (.date (env.now 8))) ],
    [ ("eventId", eventRef eventId),
      ("rewardName", .scalar (.str "카카오프렌즈 인형")),
      ("rewardGrade", .scalar (.num 3 0)),
      ("probability", .scalar (.num 15 2)),
      ("totalQuantity", .scalar (.num 15 0)),
      ("remainingQuantity", .scalar (.num 15 0)),
      ("imageUrl", .scalar (.str "https://example.com/kakao-friends.jpg")),
      ("description", .scalar (.str "라이언 또는 어피치 인형 (랜덤)")),
      ("createdAt", .scalar (.date (env.now 9))),
      ("updatedAt", .scalar (.date (env.now 10))) ],
    [ ("eventId", eventRef eventId),
      ("rewardName", .scalar (.str "스타벅스 기프티콘 1만원")),
      ("rewardGrade", .scalar (.num 4 0)),
      ("probability", .scalar (.num 20 2)),
      ("totalQuantity", .scalar (.num 20 0)),
      ("remainingQuantity", .scalar (.num 20 0)),
      ("imageUrl", .scalar (.str "https://example.com/starbucks-10k.jpg")),
      ("description", .scalar (.str "스타벅스 모바일 기프트카드 1만원권")),
      ("createdAt", .scalar (.date (env.now 11))),
      ("updatedAt", .scalar (.date (env.now 12))) ],
    [ ("eventId", eventRef eventId),
      ("rewardName", .scalar (.str "버스 버디버디 굿즈")),
      ("rewardGrade", .scalar (.num 5 0)),
      ("probability", .scalar (.num 50 2)),
      ("totalQuantity", .scalar (.num 50 0)),
      ("remainingQuantity", .scalar (.num 50 0)),
      ("imageUrl", .scalar (.str "https://example.com/busbuddy-goods.jpg")),
      ("description", .scalar (.str "버스 버디버디 에코백 + 스티커 세트")),
      ("createdAt", .scalar (.date (env.now 13))),
      ("updatedAt", .scalar (.date (env.now 14))) ] ]

/-- The number of elements of a script array, as a scalar. -/
def lengthOf (docs : List Doc) : Scalar := .num (docs.length : Int) 0

/-- The line the mission callback of line 149 prints. -/
def missionLine (mission : Doc) : Line :=
  [.text "  - ", .prop (field "title" mission), .text " (", .prop (field "missionType" mission),
   .text ")"]

/-- The line the reward callback of line 154 prints. -/
def rewardLine (reward : Doc) : Line :=
  [.text "  - ", .prop (field "rewardGrade" reward), .text "등: ",
   .prop (field "rewardName" reward), .text " (", .product (field "probability" reward) 100,
   .text "%)"]

/-- The script-level constants that are alive once the data is written. -/
structure Seeded where
  eventId : Scalar
  missions : List Doc
  rewards : List Doc
  deriving DecidableEq, Repr

/-- Lines 5 to 129: reset, then the event, the missions and the rewards.  In mongosh
`insertedIds` is an object keyed by position, so its `length` is undefined. -/
def seedData (env : Env) : Shell Seeded := do
  deleteMany env 0 .events (fun _ => true)
  deleteMany env 1 .event_missions (fun _ => true)
  deleteMany env 2 .event_rewards (fun _ => true)
  deleteMany env 3 .event_participations (fun _ => true)
  print [.text "✅ 기존 이벤트 데이터 삭제 완료"]
  let eventResult ← insertOne env 4 .events (eventDoc env)
  let eventId := eventResult.insertedId
  print [.text "✅ 이벤트 생성 완료: ", .scalar eventId]
  let missions := missions env eventId
  let _missionResult ← insertMany env 5 .event_missions missions
  print [.text "✅ 미션 생성 완료: ", .undefined, .text "개"]
  let rewards := rewards env eventId
  let _rewardResult ← insertMany env 6 .event_rewards rewards
  print [.text "✅ 상품 생성 완료: ", .undefined, .text "개"]
  pure ⟨eventId, missions, rewards⟩

/-- Lines 132 to 158: the summary and the read-back.  The value is the constant
`event` of line 145. -/
def report (env : Env) (s : Seeded) : Shell (Option Doc) := do
  print [.text "\n========================================"]
  print [.text "📋 생성된 이벤트 데이터 요약"]
  print [.text "========================================"]
  print [.text "이벤트 ID: ", .scalar s.eventId]
  print [.text "이벤트 이름: CoShow 2024 부스 이벤트"]
  print [.text "미션 수: ", .scalar (lengthOf s.missions), .text "개"]
  print [.text "상품 수: ", .scalar (lengthOf s.rewards), .text "개"]
  print [.text "조직 ID: ORG001"]
  print [.text "\n⚠️  주의: organizationId와 targetValue를 실제 값으로 변경하세요!"]
  print [.text "========================================\n"]
  print [.text "📊 이벤트 조회 테스트:"]
  let event ← findOne env 7 .events ["_id"] s.eventId
  print [.json event]
  print [.text "\n📋 미션 목록:"]
  let missionCursor ← find env 8 .event_missions ["eventId", "$id"] s.eventId none
  forEach (fun mission => print (missionLine mission)) missionCursor
  print [.text "\n🎁 상품 목록:"]
  let rewardCursor ← find env 9 .event_rewards ["eventId", "$id"] s.eventId (some "rewardGrade")
  forEach (fun reward => print (rewardLine reward)) rewardCursor
  print [.text "\n✅ 이벤트 데이터 초기화 완료!"]
  pure event

/-- The whole script. -/
def script (env : Env) : Shell (Seeded × Option Doc) := do
  let s ← seedData env
  let event ← report env s
  pure (s, event)

/-- What a run leaves behind. -/
structure Outcome where
  result : Except ShellError (Seeded × Option Doc)
  db : Store
  stdout : List Line

/-- One invocation of the script against a store, in a fresh shell. -/
def run (env : Env) (db : Store) : Outcome :=
  let r := (script env).exec ⟨db, [], env.oidSeed⟩
  ⟨r.1, r.2.db, r.2.stdout⟩

/-- No store operation of the script is refused. -/
def Env.faultFree (env : Env) : Prop := ∀ op, op < 10 → env.fault op = none

/-- The empty store. -/
def Store.empty : Store := ⟨[], [], [], []⟩

/-- An environment for examples: a clock ticking once per reading, no faults, scans in
insertion order. -/
def calmEnv : Env := ⟨fun k => 1730000000000 + k, 100, fun _ => none, fun _ => 0⟩

/-! ## Auxiliary definitions for the statements -/

/-- The documents a fault-free run writes, for a shell whose ObjectId counter is `n`. -/
def seededStore (env : Env) (n : Nat) : Store :=
  { events := [("_id", .scalar (.objectId n)) :: eventDoc env],
    event_missions := (assignIds (n + 1) (missions env (.objectId n))).1,
    event_rewards := (assignIds (n + 4) (rewards env (.objectId n))).1,
    event_participations := [] }

/-- The progress lines of a fault-free run. -/
def seedLog (n : Nat) : List Line :=
  [ [.text "✅ 기존 이벤트 데이터 삭제 완료"],
    [.text "✅ 이벤트 생성 완료: ", .scalar (.objectId n)],
    [.text "✅ 미션 생성 완료: ", .undefined, .text "개"],
    [.text "✅ 상품 생성 완료: ", .undefined, .text "개"] ]

/-- The event the read-back of line 145 finds. -/
def readEvent (env : Env) (db : Store) (eventId : Scalar) : Option Doc :=
  (naturalOrder env.scanRank db.events).find? (matchesEq ["_id"] eventId)

/-- The missions the query of line 149 returns. -/
def readMissions (env : Env) (db : Store) (eventId : Scalar) : List Doc :=
  (naturalOrder env.scanRank db.event_missions).filter (matchesEq ["eventId", "$id"] eventId)

/-- The rewards the query of line 154 returns. -/
def readRewards (env : Env) (db : Store) (eventId : Scalar) : List Doc :=
  sortAsc "rewardGrade"
    ((naturalOrder env.scanRank db.event_rewards).filter (matchesEq ["eventId", "$id"] eventId))

/-- The lines of the summary block, up to the read-back banner. -/
def summaryLines (s : Seeded) : List Line :=
  [ [.text "\n========================================"],
    [.text "📋 생성된 이벤트 데이터 요약"],
    [.text "========================================"],
    [.text "이벤트 ID: ", .scalar s.eventId],
    [.text "이벤트 이름: CoShow 2024 부스 이벤트"],
    [.text "미션 수: ", .scalar (lengthOf s.missions), .text "개"],
    [.text "상품 수: ", .scalar (lengthOf s.rewards), .text "개"],
    [.text "조직 ID: ORG001"],
    [.text "\n⚠️  주의: organizationId와 targetValue를 실제 값으로 변경하세요!"],
    [.text "========================================\n"],
    [.text "📊 이벤트 조회 테스트:"] ]

/-- Everything a fault-free report prints. -/
def reportLines (env : Env) (db : Store) (s : Seeded) : List Line :=
  summaryLines s ++
    ([.json (readEvent env db s.eventId)] ::
      [.text "\n📋 미션 목록:"] :: (readMissions env db s.eventId).map missionLine ++
        ([.text "\n🎁 상품 목록:"] :: (readRewards env db s.eventId).map rewardLine ++
          [[.text "\n✅ 이벤트 데이터 초기화 완료!"]]))

/-- The constants of a fault-free run in a shell whose ObjectId counter is `n`. -/
def seededConsts (env : Env) (n : Nat) : Seeded :=
  ⟨.objectId n, missions env (.objectId n), rewards env (.objectId n)⟩

/-- An event document that has nothing to do with the fixture. -/
def strayEvent : Doc :=
  [("_id", .scalar (.objectId 7)), ("name", .scalar (.str "unrelated event"))]

/-- A store that already holds documents. -/
def busyStore : Store :=
  ⟨[strayEvent], [[("_id", .scalar (.objectId 8))]], [], [[("_id", .scalar (.objectId 9))]]⟩

/-- The win probability of a reward document as a rational number. -/
def probabilityOf (d : Doc) : Option ℚ :=
  match field "probability" d with
  | some (.scalar (.num m s)) => some (decimal m s)
  | _ => none

/-- The grade of a reward document as an integer (0 when it has none). -/
def gradeOf (d : Doc) : Int :=
  match field "rewardGrade" d with
  | some (.scalar (.num m _)) => m
  | _ => 0

/-- An environment without faults whose store scans a collection backwards with
respect to the field `order`: the higher the value, the earlier the document. -/
def reversingEnv : Env :=
  ⟨fun k => 1730000000000 + k, 100, fun _ => none,
   fun d =>
     match field "order" d with
     | some (.scalar (.num m _)) => (10 - m).toNat
     | _ => 0⟩

/-- An environment whose store refuses operation `op` after `k` documents. -/
def faultyEnv (op k : Nat) : Env :=
  ⟨fun i => 1730000000000 + i, 100, fun i => if i = op then some k else none, fun _ => 0⟩

/-! ## Running statements -/

@[simp]
theorem exec_pure {α : Type} (a : α) (w : World) :
    (pure a : Shell α).exec w = (.ok a, w) := rfl

@[simp]
theorem exec_bind {α β : Type} (m : Shell α) (f : α → Shell β) (w : World) :
    (m >>= f).exec w =
      match m.exec w with
      | (.ok a, w') => (f a).exec w'
      | (.error e, w') => (.error e, w') := rfl

@[simp]
theorem exec_andThen {α β : Type} (m : Shell α) (f : α → Shell β) (w : World) :
    (Shell.andThen m f).exec w =
      match m.exec w with
      | (.ok a, w') => (f a).exec w'
      | (.error e, w') => (.error e, w') := rfl

@[simp]
theorem exec_print (line : Line) (w : World) :
    (print line).exec w = (.ok (), { w with stdout := w.stdout ++ [line] }) := rfl

theorem exec_deleteMany (env : Env) (op : Nat) (c : Coll) (filter : Doc → Bool) (w : World) :
    (deleteMany env op c filter).exec w =
      match env.fault op with
      | none =>
        (.ok (), { w with db := w.db.setColl c ((w.db.coll c).filter (fun d => !filter d)) })
      | some k =>
        (.error (.storeFault op),
          { w with db := w.db.setColl c (removeFirst filter k (w.db.coll c)) }) := rfl

theorem exec_insertOne (env : Env) (op : Nat) (c : Coll) (doc : Doc) (w : World) :
    (insertOne env op c doc).exec w =
      match env.fault op with
      | none =>
        match writeOrdered c (w.db.coll c) (assignIds w.nextOid [doc]).1 with
        | (.ok _, docs') =>
          (.ok ⟨((((assignIds w.nextOid [doc]).1).map idOf).head?).getD .null⟩,
            { w with db := w.db.setColl c docs', nextOid := (assignIds w.nextOid [doc]).2 })
        | (.error e, docs') =>
          (.error e, { w with db := w.db.setColl c docs', nextOid := (assignIds w.nextOid [doc]).2 })
      | some _ => (.error (.storeFault op), { w with nextOid := (assignIds w.nextOid [doc]).2 }) := rfl

theorem exec_insertMany (env : Env) (op : Nat) (c : Coll) (docs : List Doc) (w : World) :
    (insertMany env op c docs).exec w =
      match env.fault op with
      | none =>
        match writeOrdered c (w.db.coll c) (assignIds w.nextOid docs).1 with
        | (.ok _, docs') =>
          (.ok ⟨indexed 0 ((assignIds w.nextOid docs).1.map idOf)⟩,
            { w with db := w.db.setColl c docs', nextOid := (assignIds w.nextOid docs).2 })
        | (.error e, docs') =>
          (.error e, { w with db := w.db.setColl c docs', nextOid := (assignIds w.nextOid docs).2 })
      | some k =>
        match writeOrdered c (w.db.coll c) ((assignIds w.nextOid docs).1.take k) with
        | (.ok _, docs') =>
          (.error (.storeFault op),
            { w with db := w.db.setColl c docs', nextOid := (assignIds w.nextOid docs).2 })
        | (.error e, docs') =>
          (.error e, { w with db := w.db.setColl c docs', nextOid := (assignIds w.nextOid docs).2 }) := rfl

theorem exec_findOne (env : Env) (op : Nat) (c : Coll) (path : List String) (v : Scalar)
    (w : World) :
    (findOne env op c path v).exec w =
      match env.fault op with
      | none => (.ok ((naturalOrder env.scanRank (w.db.coll c)).find? (matchesEq path v)), w)
      | some _ => (.error (.storeFault op), w) := rfl

theorem exec_find (env : Env) (op : Nat) (c : Coll) (path : List String) (v : Scalar)
    (sortKey : Option String) (w : World) :
    (find env op c path v sortKey).exec w =
      match env.fault op with
      | none =>
        (.ok (match sortKey with
              | some key =>
                sortAsc key ((naturalOrder env.scanRank (w.db.coll c)).filter (matchesEq path v))
              | none => (naturalOrder env.scanRank (w.db.coll c)).filter (matchesEq path v)), w)
      | some _ => (.error (.storeFault op), w) := rfl

theorem exec_forEach_print (f : Doc → Line) (docs : List Doc) (w : World) :
    (forEach (fun d => print (f d)) docs).exec w =
      (.ok (), { w with stdout := w.stdout ++ docs.map f }) := by
  induction docs generalizing w with
  | nil => simp [forEach]
  | cons d rest ih => simp [forEach, ih]

theorem exec_seedData (env : Env) (h : env.faultFree) (w : World) :
    (seedData env).exec w =
      (.ok ⟨.objectId w.nextOid, missions env (.objectId w.nextOid),
            rewards env (.objectId w.nextOid)⟩,
       ⟨seededStore env w.nextOid, w.stdout ++ seedLog w.nextOid, w.nextOid + 9⟩) := by
  have h0 := h 0 (by decide)
  have h1 := h 1 (by decide)
  have h2 := h 2 (by decide)
  have h3 := h 3 (by decide)
  have h4 := h 4 (by decide)
  have h5 := h 5 (by decide)
  have h6 := h 6 (by decide)
  simp [seedData, exec_deleteMany, exec_insertOne, exec_insertMany, h0, h1, h2, h3, h4, h5, h6,
    Store.setColl, Store.coll, writeOrdered, assignIds, missions, rewards, eventDoc, field, idOf,
    atPath, matchesEq, Scalar.same, eventRef, seededStore, seedLog]

theorem exec_report (env : Env) (h7 : env.fault 7 = none) (h8 : env.fault 8 = none)
    (h9 : env.fault 9 = none) (s : Seeded) (w : World) :
    (report env s).exec w =
      (.ok (readEvent env w.db s.eventId),
        { w with stdout := w.stdout ++ reportLines env w.db s }) := by
  simp [report, exec_findOne, exec_find, exec_forEach_print, h7, h8, h9, reportLines,
    summaryLines, readEvent, readMissions, readRewards, Store.coll]

theorem scanInsert_perm (rank : Doc → Nat) (d : Doc) :
    ∀ l : List Doc, (scanInsert rank d l).Perm (d :: l)
  | [] => List.Perm.refl _
  | e :: rest => by
    by_cases hle : rank e ≤ rank d
    · simp only [scanInsert, hle, if_true]
      exact ((scanInsert_perm rank d rest).cons e).trans (List.Perm.swap d e rest)
    · simp only [scanInsert, hle, if_false]
      exact List.Perm.refl _

theorem foldl_scanInsert_perm (rank : Doc → Nat) :
    ∀ (l acc : List Doc), (l.foldl (fun acc d => scanInsert rank d acc) acc).Perm (acc ++ l)
  | [], acc => by simp
  | d :: rest, acc => by
    simp only [List.foldl_cons]
    refine (foldl_scanInsert_perm rank rest (scanInsert rank d acc)).trans ?_
    refine ((scanInsert_perm rank d acc).append_right rest).trans ?_
    simpa using (@List.perm_middle Doc d acc rest).symm

theorem naturalOrder_perm (rank : Doc → Nat) (l : List Doc) : (naturalOrder rank l).Perm l := by
  simpa [naturalOrder] using foldl_scanInsert_perm rank l []

theorem sortInsert_perm (key : String) (d : Doc) :
    ∀ l : List Doc, (sortInsert key d l).Perm (d :: l)
  | [] => List.Perm.refl _
  | e :: rest => by
    by_cases hle : keyLe (field key e) (field key d) = true
    · simp only [sortInsert, hle, if_true]
      exact ((sortInsert_perm key d rest).cons e).trans (List.Perm.swap d e rest)
    · simp only [sortInsert, hle]
      exact List.Perm.refl _

theorem foldl_sortInsert_perm (key : String) :
    ∀ (l acc : List Doc), (l.foldl (fun acc d => sortInsert key d acc) acc).Perm (acc ++ l)
  | [], acc => by simp
  | d :: rest, acc => by
    simp only [List.foldl_cons]
    refine (foldl_sortInsert_perm key rest (sortInsert key d acc)).trans ?_
    refine ((sortInsert_perm key d acc).append_right rest).trans ?_
    simpa using (@List.perm_middle Doc d acc rest).symm

theorem sortAsc_perm (key : String) (l : List Doc) : (sortAsc key l).Perm l := by
  simpa [sortAsc] using foldl_sortInsert_perm key l []

theorem sortInsert_sorted (key : String) (g : Doc → Int) (d : Doc) :
    ∀ l : List Doc, (∀ e ∈ l, keyLe (field key e) (field key d) = decide (g e ≤ g d)) →
      (l.map g).Sorted (· ≤ ·) → ((sortInsert key d l).map g).Sorted (· ≤ ·)
  | [], _, _ => by simp [sortInsert]
  | e :: rest, hk, hs => by
    have he := hk e (List.mem_cons_self _ _)
    have hrest : ∀ x ∈ rest, keyLe (field key x) (field key d) = decide (g x ≤ g d) :=
      fun x hx => hk x (List.mem_cons_of_mem _ hx)
    rw [List.map_cons, List.sorted_cons] at hs
    by_cases hle : g e ≤ g d
    · have hkey : keyLe (field key e) (field key d) = true := by simp [he, hle]
      simp only [sortInsert, hkey, if_true, List.map_cons, List.sorted_cons]
      refine ⟨?_, sortInsert_sorted key g d rest hrest hs.2⟩
      intro b hb
      obtain ⟨x, hx, rfl⟩ := List.mem_map.1 hb
      rcases List.mem_cons.1 ((sortInsert_perm key d rest).subset hx) with rfl | hx'
      · exact hle
      · exact hs.1 _ (List.mem_map_of_mem g hx')
    · have hkey : keyLe (field key e) (field key d) = false := by simp [he, hle]
      simp only [sortInsert, hkey, Bool.false_eq_true, if_false, List.map_cons, List.sorted_cons]
      refine ⟨?_, ?_, hs.2⟩
      · intro b hb
        rcases List.mem_cons.1 hb with rfl | hb'
        · omega
        · have := hs.1 b hb'
          omega
      · exact hs.1

theorem foldl_sortInsert_sorted (key : String) (g : Doc → Int) :
    ∀ (l acc : List Doc),
      (∀ a ∈ acc ++ l, ∀ b ∈ acc ++ l, keyLe (field key a) (field key b) = decide (g a ≤ g b)) →
      (acc.map g).Sorted (· ≤ ·) →
      ((l.foldl (fun acc d => sortInsert key d acc) acc).map g).Sorted (· ≤ ·)
  | [], _, _, hs => by simpa using hs
  | d :: rest, acc, hk, hs => by
    simp only [List.foldl_cons]
    have hsub : ∀ x, x ∈ sortInsert key d acc ++ rest → x ∈ acc ++ d :: rest := by
      intro x hx
      rcases List.mem_append.1 hx with hx | hx
      · rcases List.mem_cons.1 ((sortInsert_perm key d acc).subset hx) with rfl | hx'
        · simp
        · simp [hx']
      · simp [hx]
    refine foldl_sortInsert_sorted key g rest (sortInsert key d acc)
      (fun a ha b hb => hk a (hsub a ha) b (hsub b hb)) ?_
    exact sortInsert_sorted key g d acc
      (fun e he => hk e (by simp [he]) d (by simp)) hs

theorem eq_of_map_eq (g : Doc → Int) :
    ∀ l₁ l₂ : List Doc, l₁.map g = l₂.map g →
      (∀ a ∈ l₁, ∀ b ∈ l₂, g a = g b → a = b) → l₁ = l₂
  | [], [], _, _ => rfl
  | [], _ :: _, h, _ => by simp at h
  | _ :: _, [], h, _ => by simp at h
  | a :: l₁, b :: l₂, h, hinj => by
    simp only [List.map_cons, List.cons.injEq] at h
    have hab : a = b := hinj a (by simp) b (by simp) h.1
    have hrest : l₁ = l₂ :=
      eq_of_map_eq g l₁ l₂ h.2 (fun x hx y hy => hinj x (by simp [hx]) y (by simp [hy]))
    rw [hab, hrest]

/-- Sorting any rearrangement of a list that is ascending on an integer key, with no
key repeated, gives that list back. -/
theorem sortAsc_eq_of_perm (key : String) (g : Doc → Int) (l l' : List Doc)
    (hp : l'.Perm l)
    (hk : ∀ a ∈ l, ∀ b ∈ l, keyLe (field key a) (field key b) = decide (g a ≤ g b))
    (hs : (l.map g).Sorted (· ≤ ·))
    (hinj : ∀ a ∈ l, ∀ b ∈ l, g a = g b → a = b) :
    sortAsc key l' = l := by
  have hperm : (sortAsc key l').Perm l := (sortAsc_perm key l').trans hp
  have hsorted : ((sortAsc key l').map g).Sorted (· ≤ ·) := by
    unfold sortAsc
    refine foldl_sortInsert_sorted key g l' [] ?_ (by simp)
    intro a ha b hb
    simp only [List.nil_append] at ha hb
    exact hk a (hp.subset ha) b (hp.subset hb)
  have hmap : (sortAsc key l').map g = l.map g :=
    List.eq_of_perm_of_sorted (hperm.map g) hsorted hs
  exact eq_of_map_eq g _ _ hmap (fun a ha b hb => hinj a (hperm.subset ha) b hb)

theorem readEvent_seeded (env : Env) (n : Nat) :
    readEvent env (seededStore env n) (.objectId n) =
      some (("_id", .scalar (.objectId n)) :: eventDoc env) := by
  simp [readEvent, seededStore, naturalOrder, scanInsert, matchesEq, atPath, field, Scalar.same]

theorem missions_match (env : Env) (n : Nat) :
    ∀ d ∈ (seededStore env n).event_missions,
      matchesEq ["eventId", "$id"] (.objectId n) d = true := by
  simp [seededStore, assignIds, missions, eventRef, matchesEq, atPath, field, Scalar.same]

theorem rewards_match (env : Env) (n : Nat) :
    ∀ d ∈ (seededStore env n).event_rewards,
      matchesEq ["eventId", "$id"] (.objectId n) d = true := by
  simp [seededStore, assignIds, rewards, eventRef, matchesEq, atPath, field, Scalar.same]

theorem rewards_scan_filter (env : Env) (n : Nat) :
    (naturalOrder env.scanRank (seededStore env n).event_rewards).filter
        (matchesEq ["eventId", "$id"] (.objectId n)) =
      naturalOrder env.scanRank (seededStore env n).event_rewards := by
  rw [List.filter_eq_self]
  intro d hd
  exact rewards_match env n d ((naturalOrder_perm _ _).subset hd)

theorem sortAsc_rewards (env : Env) (n : Nat) (l' : List Doc)
    (hp : l'.Perm (seededStore env n).event_rewards) :
    sortAsc "rewardGrade" l' = (seededStore env n).event_rewards := by
  refine sortAsc_eq_of_perm "rewardGrade" gradeOf _ l' hp ?_ ?_ ?_
  · intro a ha b hb
    simp [seededStore, assignIds, rewards, field] at ha hb
    rcases ha with rfl | rfl | rfl | rfl | rfl <;> rcases hb with rfl | rfl | rfl | rfl | rfl <;>
      simp [field, gradeOf, keyLe, typeRank, Scalar.le, numLe]
  · simp [seededStore, assignIds, rewards, field, gradeOf]
  · intro a ha b hb
    simp [seededStore, assignIds, rewards, field] at ha hb
    rcases ha with rfl | rfl | rfl | rfl | rfl <;> rcases hb with rfl | rfl | rfl | rfl | rfl <;>
      simp [field, gradeOf]

theorem readRewards_seeded (env : Env) (n : Nat) :
    readRewards env (seededStore env n) (.objectId n) = (seededStore env n).event_rewards := by
  unfold readRewards
  rw [rewards_scan_filter]
  exact sortAsc_rewards env n _ (naturalOrder_perm _ _)

theorem run_faultFree (env : Env) (h : env.faultFree) (db : Store) :
    run env db =
      ⟨.ok (seededConsts env env.oidSeed, some (("_id", .scalar (.objectId env.oidSeed)) :: eventDoc env)),
       seededStore env env.oidSeed,
       seedLog env.oidSeed ++
         reportLines env (seededStore env env.oidSeed) (seededConsts env env.oidSeed)⟩ := by
  have h7 := h 7 (by decide)
  have h8 := h 8 (by decide)
  have h9 := h 9 (by decide)
  simp [run, script, exec_seedData env h, exec_report env h7 h8 h9, seededConsts,
    readEvent_seeded]

theorem calmEnv_faultFree : calmEnv.faultFree := fun _ _ => rfl

theorem seeded_ids (env : Env) (n : Nat) (c : Coll) (d : Doc)
    (hd : d ∈ (seededStore env n).coll c) :
    ∃ k, k < 9 ∧ field "_id" d = some (.scalar (.objectId (n + k))) := by
  cases c
  · simp [seededStore, Store.coll] at hd
    subst hd
    exact ⟨0, by decide, by simp [field]⟩
  · simp [seededStore, Store.coll, assignIds, missions, field] at hd
    rcases hd with rfl | rfl | rfl
    · exact ⟨1, by decide, by simp [field]⟩
    · exact ⟨2, by decide, by simp [field]⟩
    · exact ⟨3, by decide, by simp [field]⟩
  · simp [seededStore, Store.coll, assignIds, rewards, field] at hd
    rcases hd with rfl | rfl | rfl | rfl | rfl
    · exact ⟨4, by decide, by simp [field]⟩
    · exact ⟨5, by decide, by simp [field]⟩
    · exact ⟨6, by decide, by simp [field]⟩
    · exact ⟨7, by decide, by simp [field]⟩
    · exact ⟨8, by decide, by simp [field]⟩
  · simp [seededStore, Store.coll] at hd

/-! ## The claims -/

/-- C1. Idempotent reset: whatever the four collections hold at first, two fault-free
runs in succession both end normally and leave 1 event, 3 missions and 5 rewards, the
same counts as one run; the second run leaves exactly what it would leave on an empty
store, so no row of the first run survives its reset. -/
theorem idempotent_reset (env₁ env₂ : Env) (db : Store)
    (h₁ : env₁.faultFree) (h₂ : env₂.faultFree) :
    (∃ r, (run env₂ (run env₁ db).db).result = .ok r) ∧
    (run env₂ (run env₁ db).db).db.events.length = 1 ∧
    (run env₂ (run env₁ db).db).db.event_missions.length = 3 ∧
    (run env₂ (run env₁ db).db).db.event_rewards.length = 5 ∧
    (run env₁ db).db.events.length = 1 ∧
    (run env₁ db).db.event_missions.length = 3 ∧
    (run env₁ db).db.event_rewards.length = 5 ∧
    (run env₂ (run env₁ db).db).db = (run env₂ Store.empty).db := by
  rw [run_faultFree env₂ h₂, run_faultFree env₁ h₁, run_faultFree env₂ h₂]
  simp [seededStore, assignIds, missions, rewards, field]

theorem idempotent_reset_witness :
    (∃ r, (run calmEnv (run calmEnv busyStore).db).result = .ok r) ∧
    (run calmEnv (run calmEnv busyStore).db).db.events.length = 1 ∧
    (run calmEnv (run calmEnv busyStore).db).db.event_missions.length = 3 ∧
    (run calmEnv (run calmEnv busyStore).db).db.event_rewards.length = 5 ∧
    (run calmEnv busyStore).db.events.length = 1 ∧
    (run calmEnv busyStore).db.event_missions.length = 3 ∧
    (run calmEnv busyStore).db.event_rewards.length = 5 ∧
    (run calmEnv (run calmEnv busyStore).db).db = (run calmEnv Store.empty).db :=
  idempotent_reset calmEnv calmEnv busyStore calmEnv_faultFree calmEnv_faultFree

/-- C2. Referential consistency: after a fault-free run every mission and every reward
in the store carries the reference with collection name events and the id returned by
the event insert of this run, and exactly one document of events has that id: the
event document of this run. -/
theorem referential_consistency (env : Env) (db : Store) (h : env.faultFree) :
    ∃ s ev, (run env db).result = .ok (s, ev) ∧
      (∀ d ∈ (run env db).db.event_missions,
        field "eventId" d = some (.embedded [("$ref", .str Coll.events.name), ("$id", s.eventId)])) ∧
      (∀ d ∈ (run env db).db.event_rewards,
        field "eventId" d = some (.embedded [("$ref", .str Coll.events.name), ("$id", s.eventId)])) ∧
      (run env db).db.events.filter (matchesEq ["_id"] s.eventId) =
        [("_id", .scalar s.eventId) :: eventDoc env] ∧
      s.eventId = .objectId env.oidSeed := by
  rw [run_faultFree env h]
  refine ⟨_, _, rfl, ?_, ?_, ?_, rfl⟩ <;>
    simp [seededStore, seededConsts, assignIds, missions, rewards, field, eventRef, Coll.name,
      matchesEq, atPath, Scalar.same]

theorem referential_consistency_witness :
    ∃ s ev, (run calmEnv busyStore).result = .ok (s, ev) ∧
      (∀ d ∈ (run calmEnv busyStore).db.event_missions,
        field "eventId" d = some (.embedded [("$ref", .str Coll.events.name), ("$id", s.eventId)])) ∧
      (∀ d ∈ (run calmEnv busyStore).db.event_rewards,
        field "eventId" d = some (.embedded [("$ref", .str Coll.events.name), ("$id", s.eventId)])) ∧
      (run calmEnv busyStore).db.events.filter (matchesEq ["_id"] s.eventId) =
        [("_id", .scalar s.eventId) :: eventDoc calmEnv] ∧
      s.eventId = .objectId calmEnv.oidSeed :=
  referential_consistency calmEnv busyStore calmEnv_faultFree

/-- C3. End-to-end scenario: a fault-free run on the empty store ends normally and
leaves one event, named CoShow 2024 부스 이벤트 and active; the three missions with
the listed title, type, target and order; the five rewards with the listed grade,
name, total quantity and probability; and no participation. -/
theorem end_to_end_scenario (env : Env) (h : env.faultFree) :
    (∃ r, (run env Store.empty).result = .ok r) ∧
    (run env Store.empty).db.events.map (fun d => (field "name" d, field "isActive" d)) =
      [(some (.scalar (.str "CoShow 2024 부스 이벤트")), some (.scalar (.bool true)))] ∧
    (run env Store.empty).db.event_missions.map
        (fun d => (field "title" d, field "missionType" d, field "targetValue" d, field "order" d)) =
      [ (some (.scalar (.str "특정 버스 탑승하기")), some (.scalar (.str "BOARDING")),
          some (.scalar (.str "5001")), some (.scalar (.num 1 0))),
        (some (.scalar (.str "특정 정류장 방문하기")), some (.scalar (.str "VISIT_STATION")),
          some (.scalar (.str "STATION_COSHOW")), some (.scalar (.num 2 0))),
        (some (.scalar (.str "자동 승하차 감지 완료")), some (.scalar (.str "AUTO_DETECT_BOARDING")),
          some (.scalar .null), some (.scalar (.num 3 0))) ] ∧
    (run env Store.empty).db.event_rewards.map
        (fun d => (field "rewardGrade" d, field "rewardName" d, field "totalQuantity" d,
          field "probability" d)) =
      [ (some (.scalar (.num 1 0)), some (.scalar (.str "AirPods Pro 2세대")),
          some (.scalar (.num 5 0)), some (.scalar (.num 5 2))),
        (some (.scalar (.num 2 0)), some (.scalar (.str "스타벅스 기프티콘 3만원")),
          some (.scalar (.num 10 0)), some (.scalar (.num 10 2))),
        (some (.scalar (.num 3 0)), some (.scalar (.str "카카오프렌즈 인형")),
          some (.scalar (.num 15 0)), some (.scalar (.num 15 2))),
        (some (.scalar (.num 4 0)), some (.scalar (.str "스타벅스 기프티콘 1만원")),
          some (.scalar (.num 20 0)), some (.scalar (.num 20 2))),
        (some (.scalar (.num 5 0)), some (.scalar (.str "버스 버디버디 굿즈")),
          some (.scalar (.num 50 0)), some (.scalar (.num 50 2))) ] ∧
    (run env Store.empty).db.event_participations = [] := by
  rw [run_faultFree env h]
  simp [seededStore, assignIds, missions, rewards, eventDoc, field]

theorem end_to_end_scenario_witness :
    (∃ r, (run calmEnv Store.empty).result = .ok r) ∧
    (run calmEnv Store.empty).db.events.map (fun d => (field "name" d, field "isActive" d)) =
      [(some (.scalar (.str "CoShow 2024 부스 이벤트")), some (.scalar (.bool true)))] ∧
    (run calmEnv Store.empty).db.event_missions.map
        (fun d => (field "title" d, field "missionType" d, field "targetValue" d, field "order" d)) =
      [ (some (.scalar (.str "특정 버스 탑승하기")), some (.scalar (.str "BOARDING")),
          some (.scalar (.str "5001")), some (.scalar (.num 1 0))),
        (some (.scalar (.str "특정 정류장 방문하기")), some (.scalar (.str "VISIT_STATION")),
          some (.scalar (.str "STATION_COSHOW")), some (.scalar (.num 2 0))),
        (some (.scalar (.str "자동 승하차 감지 완료")), some (.scalar (.str "AUTO_DETECT_BOARDING")),
          some (.scalar .null), some (.scalar (.num 3 0))) ] ∧
    (run calmEnv Store.empty).db.event_rewards.map
        (fun d => (field "rewardGrade" d, field "rewardName" d, field "totalQuantity" d,
          field "probability" d)) =
      [ (some (.scalar (.num 1 0)), some (.scalar (.str "AirPods Pro 2세대")),
          some (.scalar (.num 5 0)), some (.scalar (.num 5 2))),
        (some (.scalar (.num 2 0)), some (.scalar (.str "스타벅스 기프티콘 3만원")),
          some (.scalar (.num 10 0)), some (.scalar (.num 10 2))),
        (some (.scalar (.num 3 0)), some (.scalar (.str "카카오프렌즈 인형")),
          some (.scalar (.num 15 0)), some (.scalar (.num 15 2))),
        (some (.scalar (.num 4 0)), some (.scalar (.str "스타벅스 기프티콘 1만원")),
          some (.scalar (.num 20 0)), some (.scalar (.num 20 2))),
        (some (.scalar (.num 5 0)), some (.scalar (.str "버스 버디버디 굿즈")),
          some (.scalar (.num 50 0)), some (.scalar (.num 50 2))) ] ∧
    (run calmEnv Store.empty).db.event_participations = [] :=
  end_to_end_scenario calmEnv calmEnv_faultFree

/-- C4. Destructive, unscoped reset: after a fault-free run the store is what the run
leaves on an empty store, whatever it held before; when the ObjectIds the shell
generates are not already in use, no document present before the run is present
after it; and event_participations is empty. -/
theorem destructive_reset (env : Env) (db : Store) (h : env.faultFree) :
    (run env db).db = (run env Store.empty).db ∧
    ((∀ c d, d ∈ db.coll c → ∀ k, k < 9 →
        field "_id" d ≠ some (.scalar (.objectId (env.oidSeed + k)))) →
      ∀ c d, d ∈ db.coll c → d ∉ (run env db).db.coll c) ∧
    (run env db).db.event_participations = [] := by
  rw [run_faultFree env h, run_faultFree env h]
  refine ⟨rfl, ?_, rfl⟩
  intro fresh c d hd hd'
  obtain ⟨k, hk, hid⟩ := seeded_ids env env.oidSeed c d hd'
  exact fresh c d hd k hk hid

theorem busyStore_fresh (c : Coll) (d : Doc) (hd : d ∈ busyStore.coll c) (k : Nat) (_hk : k < 9) :
    field "_id" d ≠ some (.scalar (.objectId (calmEnv.oidSeed + k))) := by
  cases c <;> simp [busyStore, Store.coll, strayEvent] at hd
  · subst hd
    simp [field, calmEnv]
    omega
  · subst hd
    simp [field, calmEnv]
    omega
  · subst hd
    simp [field, calmEnv]
    omega

theorem destructive_reset_witness :
    strayEvent ∈ busyStore.events ∧ strayEvent ∉ (run calmEnv busyStore).db.events ∧
    (run calmEnv busyStore).db.event_participations = [] :=
  ⟨by simp [busyStore],
    (destructive_reset calmEnv busyStore calmEnv_faultFree).2.1 busyStore_fresh
      .events strayEvent (by simp [busyStore, Store.coll]),
    (destructive_reset calmEnv busyStore calmEnv_faultFree).2.2⟩

/-- C5. Probability sum: the probabilities of the five rewards a fault-free run
stores, read as exact decimals, are 0.05, 0.10, 0.15, 0.20 and 0.50; they sum to
exactly 1 and each lies in the interval (0, 1]. -/
theorem probability_sum (env : Env) (db : Store) (h : env.faultFree) :
    (run env db).db.event_rewards.map probabilityOf =
      [some (5 / 100), some (10 / 100), some (15 / 100), some (20 / 100), some (50 / 100)] ∧
    ((run env db).db.event_rewards.filterMap probabilityOf).sum = 1 ∧
    ∀ p ∈ (run env db).db.event_rewards.filterMap probabilityOf, 0 < p ∧ p ≤ 1 := by
  rw [run_faultFree env h]
  simp [seededStore, assignIds, rewards, field, probabilityOf, decimal]
  norm_num

theorem probability_sum_witness :
    (run calmEnv busyStore).db.event_rewards.map probabilityOf =
      [some (5 / 100), some (10 / 100), some (15 / 100), some (20 / 100), some (50 / 100)] ∧
    ((run calmEnv busyStore).db.event_rewards.filterMap probabilityOf).sum = 1 ∧
    ∀ p ∈ (run calmEnv busyStore).db.event_rewards.filterMap probabilityOf, 0 < p ∧ p ≤ 1 :=
  probability_sum calmEnv busyStore calmEnv_faultFree

/-- C6. Quantity initialization: every reward document in event_rewards right after a
fault-free run has remainingQuantity equal to totalQuantity, both being the same
natural number. -/
theorem quantity_initialization (env : Env) (db : Store) (h : env.faultFree) :
    (run env db).db.event_rewards.length = 5 ∧
    ∀ d ∈ (run env db).db.event_rewards, ∃ q : Nat,
      field "totalQuantity" d = some (.scalar (.num (q : Int) 0)) ∧
      field "remainingQuantity" d = some (.scalar (.num (q : Int) 0)) := by
  rw [run_faultFree env h]
  simp [seededStore, assignIds, rewards, field]
  exact ⟨⟨5, rfl⟩, ⟨10, rfl⟩, ⟨15, rfl⟩, ⟨20, rfl⟩, ⟨50, rfl⟩⟩

theorem quantity_initialization_witness :
    (run calmEnv busyStore).db.event_rewards.length = 5 ∧
    ∀ d ∈ (run calmEnv busyStore).db.event_rewards, ∃ q : Nat,
      field "totalQuantity" d = some (.scalar (.num (q : Int) 0)) ∧
      field "remainingQuantity" d = some (.scalar (.num (q : Int) 0)) :=
  quantity_initialization calmEnv busyStore calmEnv_faultFree

theorem reversingEnv_faultFree : reversingEnv.faultFree := fun _ _ => rfl

/-- C7. Mission ordering, at a store that scans event_missions backwards.  The three
missions are stored with the order values 1, 2, 3, so that part of the claim holds.
The query of line 149 has no sort, unlike the reward query of line 154, so the lines
under the mission heading follow the scan: here the missions are listed with the
order values 3, 2, 1, not in ascending order. -/
theorem mission_listing_follows_scan :
    (run reversingEnv Store.empty).db.event_missions.map (field "order") =
      [some (.scalar (.num 1 0)), some (.scalar (.num 2 0)), some (.scalar (.num 3 0))] ∧
    ∃ s ev pre post, (run reversingEnv Store.empty).result = .ok (s, ev) ∧
      (run reversingEnv Store.empty).stdout =
        pre ++ ([.text "\n📋 미션 목록:"] ::
          (readMissions reversingEnv (run reversingEnv Store.empty).db s.eventId).map missionLine ++
          ([.text "\n🎁 상품 목록:"] :: post)) ∧
      (readMissions reversingEnv (run reversingEnv Store.empty).db s.eventId).map (field "order") =
        [some (.scalar (.num 3 0)), some (.scalar (.num 2 0)), some (.scalar (.num 1 0))] ∧
      (readMissions reversingEnv (run reversingEnv Store.empty).db s.eventId).map missionLine =
        [ [.text "  - ", .prop (some (.scalar (.str "자동 승하차 감지 완료"))), .text " (",
            .prop (some (.scalar (.str "AUTO_DETECT_BOARDING"))), .text ")"],
          [.text "  - ", .prop (some (.scalar (.str "특정 정류장 방문하기"))), .text " (",
            .prop (some (.scalar (.str "VISIT_STATION"))), .text ")"],
          [.text "  - ", .prop (some (.scalar (.str "특정 버스 탑승하기"))), .text " (",
            .prop (some (.scalar (.str "BOARDING"))), .text ")"] ] := by
  rw [run_faultFree reversingEnv reversingEnv_faultFree]
  refine ⟨?_, seededConsts reversingEnv reversingEnv.oidSeed, _,
    seedLog reversingEnv.oidSeed ++ summaryLines (seededConsts reversingEnv reversingEnv.oidSeed) ++
      [[.json (readEvent reversingEnv (seededStore reversingEnv reversingEnv.oidSeed)
        (.objectId reversingEnv.oidSeed))]],
    (readRewards reversingEnv (seededStore reversingEnv reversingEnv.oidSeed)
        (.objectId reversingEnv.oidSeed)).map rewardLine ++
      [[.text "\n✅ 이벤트 데이터 초기화 완료!"]], rfl, ?_, ?_, ?_⟩
  · simp [seededStore, assignIds, missions, field]
  · simp [reportLines, seededConsts]
  · simp [readMissions, naturalOrder, scanInsert, seededConsts, seededStore, assignIds, missions,
      eventRef, matchesEq, atPath, field, Scalar.same, reversingEnv]
  · simp [readMissions, naturalOrder, scanInsert, seededConsts, seededStore, assignIds, missions,
      eventRef, matchesEq, atPath, field, Scalar.same, reversingEnv, missionLine]

/-- C9. The report does not mutate state: whatever the constants, the world it starts
in and the fate of its three read-back queries, the four collections after the
summary and read-back are what they were before. -/
theorem report_keeps_store (env : Env) (s : Seeded) (w : World) :
    ((report env s).exec w).2.db = w.db := by
  simp only [report, exec_bind, exec_print, exec_findOne, exec_find, exec_forEach_print, exec_pure]
  cases env.fault 7 <;> cases env.fault 8 <;> cases env.fault 9 <;> rfl

theorem writeOrdered_missions_take (env : Env) (n k : Nat) :
    writeOrdered .event_missions [] (((assignIds (n + 1) (missions env (.objectId n))).1).take k) =
      (.ok (), ((assignIds (n + 1) (missions env (.objectId n))).1).take k) := by
  rcases k with _ | _ | _ | k <;>
    simp [assignIds, missions, writeOrdered, field, idOf, atPath, matchesEq, Scalar.same]

theorem writeOrdered_rewards_take (env : Env) (n k : Nat) :
    writeOrdered .event_rewards [] (((assignIds (n + 4) (rewards env (.objectId n))).1).take k) =
      (.ok (), ((assignIds (n + 4) (rewards env (.objectId n))).1).take k) := by
  rcases k with _ | _ | _ | _ | _ | k <;>
    simp [assignIds, rewards, writeOrdered, field, idOf, atPath, matchesEq, Scalar.same]

theorem assignIds_missions_snd (env : Env) (n : Nat) (id : Scalar) :
    (assignIds n (missions env id)).2 = n + 3 := by
  simp [assignIds, missions, field]

theorem assignIds_rewards_snd (env : Env) (n : Nat) (id : Scalar) :
    (assignIds n (rewards env id)).2 = n + 5 := by
  simp [assignIds, rewards, field]

theorem exec_seedData_eventFault (env : Env) (k : Nat)
    (h : ∀ op, op < 4 → env.fault op = none) (hf : env.fault 4 = some k) (w : World) :
    (seedData env).exec w =
      (.error (.storeFault 4),
       ⟨⟨[], [], [], []⟩, w.stdout ++ (seedLog w.nextOid).take 1, w.nextOid + 1⟩) := by
  have h0 := h 0 (by decide)
  have h1 := h 1 (by decide)
  have h2 := h 2 (by decide)
  have h3 := h 3 (by decide)
  simp [seedData, exec_deleteMany, exec_insertOne, h0, h1, h2, h3, hf, Store.setColl,
    Store.coll, assignIds, eventDoc, field, seedLog]

theorem exec_seedData_missionFault (env : Env) (k : Nat)
    (h : ∀ op, op < 5 → env.fault op = none) (hf : env.fault 5 = some k) (w : World) :
    (seedData env).exec w =
      (.error (.storeFault 5),
       ⟨⟨[("_id", .scalar (.objectId w.nextOid)) :: eventDoc env],
          (seededStore env w.nextOid).event_missions.take k, [], []⟩,
        w.stdout ++ (seedLog w.nextOid).take 2, w.nextOid + 4⟩) := by
  have h0 := h 0 (by decide)
  have h1 := h 1 (by decide)
  have h2 := h 2 (by decide)
  have h3 := h 3 (by decide)
  have h4 := h 4 (by decide)
  have hw := writeOrdered_missions_take env w.nextOid k
  have hn := assignIds_missions_snd env (w.nextOid + 1) (.objectId w.nextOid)
  simp [seedData, exec_deleteMany, exec_insertOne, exec_insertMany, h0, h1, h2, h3, h4, hf,
    Store.setColl, Store.coll, writeOrdered, idOf, atPath, matchesEq, seedLog, seededStore, hw, hn,
    show assignIds w.nextOid [eventDoc env] =
      ([("_id", .scalar (.objectId w.nextOid)) :: eventDoc env], w.nextOid + 1) from by
        simp [assignIds, eventDoc, field],
    show field "_id" (("_id", Value.scalar (.objectId w.nextOid)) :: eventDoc env) =
      some (.scalar (.objectId w.nextOid)) from by simp [field]]

theorem writeOrdered_missions_all (env : Env) (n : Nat) :
    writeOrdered .event_missions [] (assignIds (n + 1) (missions env (.objectId n))).1 =
      (.ok (), (assignIds (n + 1) (missions env (.objectId n))).1) := by
  simp [assignIds, missions, writeOrdered, field, idOf, atPath, matchesEq, Scalar.same]

theorem exec_seedData_rewardFault (env : Env) (k : Nat)
    (h : ∀ op, op < 6 → env.fault op = none) (hf : env.fault 6 = some k) (w : World) :
    (seedData env).exec w =
      (.error (.storeFault 6),
       ⟨⟨[("_id", .scalar (.objectId w.nextOid)) :: eventDoc env],
          (seededStore env w.nextOid).event_missions,
          (seededStore env w.nextOid).event_rewards.take k, []⟩,
        w.stdout ++ (seedLog w.nextOid).take 3, w.nextOid + 9⟩) := by
  have h0 := h 0 (by decide)
  have h1 := h 1 (by decide)
  have h2 := h 2 (by decide)
  have h3 := h 3 (by decide)
  have h4 := h 4 (by decide)
  have h5 := h 5 (by decide)
  have hm := writeOrdered_missions_all env w.nextOid
  have hw := writeOrdered_rewards_take env w.nextOid k
  have hn := assignIds_missions_snd env (w.nextOid + 1) (.objectId w.nextOid)
  have hr := assignIds_rewards_snd env (w.nextOid + 4) (.objectId w.nextOid)
  simp [seedData, exec_deleteMany, exec_insertOne, exec_insertMany, h0, h1, h2, h3, h4, h5, hf,
    Store.setColl, Store.coll, idOf, atPath, seedLog, seededStore, hm, hw, hn, hr,
    show ∀ d : Doc, writeOrdered .events [] [d] = (.ok (), [d]) from fun d => by
      simp [writeOrdered],
    show assignIds w.nextOid [eventDoc env] =
      ([("_id", .scalar (.objectId w.nextOid)) :: eventDoc env], w.nextOid + 1) from by
        simp [assignIds, eventDoc, field],
    show field "_id" (("_id", Value.scalar (.objectId w.nextOid)) :: eventDoc env) =
      some (.scalar (.objectId w.nextOid)) from by simp [field]]

/-- C8. Insert failure is fatal and uncompensated.  When the event insert (operation
4) fails, the run ends with that error and no event, mission or reward is in the
store.  When the mission insert (operation 5) fails after `k` documents, the run ends
with that error, the event of step 2 is still in the store, no reward is inserted and
nothing after the event progress line is printed.  When the reward insert (operation
6) fails after `k` documents, the run ends with that error, the event and the three
missions are in the store, and the summary and read-back are not executed. -/
theorem insert_failure_fatal (env : Env) (db : Store) (k : Nat) :
    ((∀ op, op < 4 → env.fault op = none) → env.fault 4 = some k →
      (run env db).result = .error (.storeFault 4) ∧
      (run env db).db.events = [] ∧
      (run env db).db.event_missions = [] ∧
      (run env db).db.event_rewards = [] ∧
      (run env db).stdout = [[.text "✅ 기존 이벤트 데이터 삭제 완료"]]) ∧
    ((∀ op, op < 5 → env.fault op = none) → env.fault 5 = some k →
      (run env db).result = .error (.storeFault 5) ∧
      (run env db).db.events = [("_id", .scalar (.objectId env.oidSeed)) :: eventDoc env] ∧
      (run env db).db.event_missions = (seededStore env env.oidSeed).event_missions.take k ∧
      (run env db).db.event_rewards = [] ∧
      (run env db).stdout =
        [ [.text "✅ 기존 이벤트 데이터 삭제 완료"],
          [.text "✅ 이벤트 생성 완료: ", .scalar (.objectId env.oidSeed)] ]) ∧
    ((∀ op, op < 6 → env.fault op = none) → env.fault 6 = some k →
      (run env db).result = .error (.storeFault 6) ∧
      (run env db).db.events = [("_id", .scalar (.objectId env.oidSeed)) :: eventDoc env] ∧
      (run env db).db.event_missions = (seededStore env env.oidSeed).event_missions ∧
      (run env db).db.event_rewards = (seededStore env env.oidSeed).event_rewards.take k ∧
      (run env db).stdout =
        [ [.text "✅ 기존 이벤트 데이터 삭제 완료"],
          [.text "✅ 이벤트 생성 완료: ", .scalar (.objectId env.oidSeed)],
          [.text "✅ 미션 생성 완료: ", .undefined, .text "개"] ]) := by
  refine ⟨fun h hf => ?_, fun h hf => ?_, fun h hf => ?_⟩
  · simp [run, script, exec_seedData_eventFault env k h hf, seedLog]
  · simp [run, script, exec_seedData_missionFault env k h hf, seedLog]
  · simp [run, script, exec_seedData_rewardFault env k h hf, seedLog]

theorem insert_failure_fatal_witness :
    ((run (faultyEnv 4 0) busyStore).result = .error (.storeFault 4) ∧
      (run (faultyEnv 4 0) busyStore).db.events = [] ∧
      (run (faultyEnv 4 0) busyStore).db.event_missions = [] ∧
      (run (faultyEnv 4 0) busyStore).db.event_rewards = [] ∧
      (run (faultyEnv 4 0) busyStore).stdout = [[.text "✅ 기존 이벤트 데이터 삭제 완료"]]) ∧
    ((run (faultyEnv 5 2) busyStore).result = .error (.storeFault 5) ∧
      (run (faultyEnv 5 2) busyStore).db.events =
        [("_id", .scalar (.objectId (faultyEnv 5 2).oidSeed)) :: eventDoc (faultyEnv 5 2)] ∧
      (run (faultyEnv 5 2) busyStore).db.event_missions =
        (seededStore (faultyEnv 5 2) (faultyEnv 5 2).oidSeed).event_missions.take 2 ∧
      (run (faultyEnv 5 2) busyStore).db.event_rewards = [] ∧
      (run (faultyEnv 5 2) busyStore).stdout =
        [ [.text "✅ 기존 이벤트 데이터 삭제 완료"],
          [.text "✅ 이벤트 생성 완료: ", .scalar (.objectId (faultyEnv 5 2).oidSeed)] ]) ∧
    ((run (faultyEnv 6 0) busyStore).result = .error (.storeFault 6) ∧
      (run (faultyEnv 6 0) busyStore).db.events =
        [("_id", .scalar (.objectId (faultyEnv 6 0).oidSeed)) :: eventDoc (faultyEnv 6 0)] ∧
      (run (faultyEnv 6 0) busyStore).db.event_missions =
        (seededStore (faultyEnv 6 0) (faultyEnv 6 0).oidSeed).event_missions ∧
      (run (faultyEnv 6 0) busyStore).db.event_rewards =
        (seededStore (faultyEnv 6 0) (faultyEnv 6 0).oidSeed).event_rewards.take 0 ∧
      (run (faultyEnv 6 0) busyStore).stdout =
        [ [.text "✅ 기존 이벤트 데이터 삭제 완료"],
          [.text "✅ 이벤트 생성 완료: ", .scalar (.objectId (faultyEnv 6 0).oidSeed)],
          [.text "✅ 미션 생성 완료: ", .undefined, .text "개"] ]) :=
  ⟨(insert_failure_fatal (faultyEnv 4 0) busyStore 0).1 (by decide) (by decide),
   (insert_failure_fatal (faultyEnv 5 2) busyStore 2).2.1 (by decide) (by decide),
   (insert_failure_fatal (faultyEnv 6 0) busyStore 0).2.2 (by decide) (by decide)⟩

/-- C10. The summary agrees with the store after a fault-free run: the event found
again by its id has the id, name and organization id the summary prints; the mission
and reward counts printed are the numbers of documents whose event reference matches
that id, 3 and 5; and the lines under the reward heading are those of the matching
rewards sorted on rewardGrade, which come with grades 1 to 5 in ascending order. -/
theorem summary_accurate (env : Env) (db : Store) (h : env.faultFree) :
    ∃ s ev name org pre,
      (run env db).result = .ok (s, some ev) ∧
      (run env db).db.events.find? (matchesEq ["_id"] s.eventId) = some ev ∧
      field "_id" ev = some (.scalar s.eventId) ∧
      field "name" ev = some (.scalar (.str name)) ∧
      field "organizationId" ev = some (.scalar (.str org)) ∧
      [.text "이벤트 ID: ", .scalar s.eventId] ∈ (run env db).stdout ∧
      [.text ("이벤트 이름: " ++ name)] ∈ (run env db).stdout ∧
      [.text ("조직 ID: " ++ org)] ∈ (run env db).stdout ∧
      [.text "미션 수: ", .scalar (.num (((run env db).db.event_missions.filter
          (matchesEq ["eventId", "$id"] s.eventId)).length : Int) 0), .text "개"] ∈
        (run env db).stdout ∧
      [.text "상품 수: ", .scalar (.num (((run env db).db.event_rewards.filter
          (matchesEq ["eventId", "$id"] s.eventId)).length : Int) 0), .text "개"] ∈
        (run env db).stdout ∧
      ((run env db).db.event_missions.filter (matchesEq ["eventId", "$id"] s.eventId)).length = 3 ∧
      ((run env db).db.event_rewards.filter (matchesEq ["eventId", "$id"] s.eventId)).length = 5 ∧
      (run env db).stdout =
        pre ++ ([.text "\n🎁 상품 목록:"] ::
          (sortAsc "rewardGrade" ((run env db).db.event_rewards.filter
            (matchesEq ["eventId", "$id"] s.eventId))).map rewardLine ++
          [[.text "\n✅ 이벤트 데이터 초기화 완료!"]]) ∧
      (sortAsc "rewardGrade" ((run env db).db.event_rewards.filter
          (matchesEq ["eventId", "$id"] s.eventId))).map (field "rewardGrade") =
        [some (.scalar (.num 1 0)), some (.scalar (.num 2 0)), some (.scalar (.num 3 0)),
         some (.scalar (.num 4 0)), some (.scalar (.num 5 0))] ∧
      (sortAsc "rewardGrade" ((run env db).db.event_rewards.filter
          (matchesEq ["eventId", "$id"] s.eventId))).Perm
        ((run env db).db.event_rewards.filter (matchesEq ["eventId", "$id"] s.eventId)) := by
  rw [run_faultFree env h]
  have hm : (seededStore env env.oidSeed).event_missions.filter
      (matchesEq ["eventId", "$id"] (.objectId env.oidSeed)) =
      (seededStore env env.oidSeed).event_missions :=
    List.filter_eq_self.2 (missions_match env env.oidSeed)
  have hf : (seededStore env env.oidSeed).event_rewards.filter
      (matchesEq ["eventId", "$id"] (.objectId env.oidSeed)) =
      (seededStore env env.oidSeed).event_rewards :=
    List.filter_eq_self.2 (rewards_match env env.oidSeed)
  have hs : sortAsc "rewardGrade" (seededStore env env.oidSeed).event_rewards =
      (seededStore env env.oidSeed).event_rewards :=
    sortAsc_rewards env env.oidSeed _ (List.Perm.refl _)
  have hr := readRewards_seeded env env.oidSeed
  refine ⟨seededConsts env env.oidSeed, _, "CoShow 2024 부스 이벤트", "ORG001",
    seedLog env.oidSeed ++ summaryLines (seededConsts env env.oidSeed) ++
      ([.json (readEvent env (seededStore env env.oidSeed) (.objectId env.oidSeed))] ::
        [.text "\n📋 미션 목록:"] ::
          (readMissions env (seededStore env env.oidSeed) (.objectId env.oidSeed)).map missionLine),
    rfl, ?_⟩
  simp only [seededConsts, hm, hf, hs]
  refine ⟨?_, ?_, ?_, ?_, ?_, ?_, ?_, ?_, ?_, ?_, ?_, ?_, ?_, List.Perm.refl _⟩
  · simp [seededStore, matchesEq, atPath, field, Scalar.same]
  · simp [field]
  · simp [field, eventDoc]
  · simp [field, eventDoc]
  · simp [reportLines, summaryLines, seedLog]
  · simp [reportLines, summaryLines, seedLog]
  · simp [reportLines, summaryLines, seedLog]
  · simp [reportLines, summaryLines, seedLog, lengthOf, seededStore, assignIds, missions, field]
  · simp [reportLines, summaryLines, seedLog, lengthOf, seededStore, assignIds, rewards, field]
  · simp [seededStore, assignIds, missions, field]
  · simp [seededStore, assignIds, rewards, field]
  · simp [reportLines, hr]
  · simp [seededStore, assignIds, rewards, field]

theorem summary_accurate_witness :
    ∃ s ev name org pre,
      (run calmEnv busyStore).result = .ok (s, some ev) ∧
      (run calmEnv busyStore).db.events.find? (matchesEq ["_id"] s.eventId) = some ev ∧
      field "_id" ev = some (.scalar s.eventId) ∧
      field "name" ev = some (.scalar (.str name)) ∧
      field "organizationId" ev = some (.scalar (.str org)) ∧
      [.text "이벤트 ID: ", .scalar s.eventId] ∈ (run calmEnv busyStore).stdout ∧
      [.text ("이벤트 이름: " ++ name)] ∈ (run calmEnv busyStore).stdout ∧
      [.text ("조직 ID: " ++ org)] ∈ (run calmEnv busyStore).stdout ∧
      [.text "미션 수: ", .scalar (.num (((run calmEnv busyStore).db.event_missions.filter
          (matchesEq ["eventId", "$id"] s.eventId)).length : Int) 0), .text "개"] ∈
        (run calmEnv busyStore).stdout ∧
      [.text "상품 수: ", .scalar (.num (((run calmEnv busyStore).db.event_rewards.filter
          (matchesEq ["eventId", "$id"] s.eventId)).length : Int) 0), .text "개"] ∈
        (run calmEnv busyStore).stdout ∧
      ((run calmEnv busyStore).db.event_missions.filter (matchesEq ["eventId", "$id"] s.eventId)).length = 3 ∧
      ((run calmEnv busyStore).db.event_rewards.filter (matchesEq ["eventId", "$id"] s.eventId)).length = 5 ∧
      (run calmEnv busyStore).stdout =
        pre ++ ([.text "\n🎁 상품 목록:"] ::
          (sortAsc "rewardGrade" ((run calmEnv busyStore).db.event_rewards.filter
            (matchesEq ["eventId", "$id"] s.eventId))).map rewardLine ++
          [[.text "\n✅ 이벤트 데이터 초기화 완료!"]]) ∧
      (sortAsc "rewardGrade" ((run calmEnv busyStore).db.event_rewards.filter
          (matchesEq ["eventId", "$id"] s.eventId))).map (field "rewardGrade") =
        [some (.scalar (.num 1 0)), some (.scalar (.num 2 0)), some (.scalar (.num 3 0)),
         some (.scalar (.num 4 0)), some (.scalar (.num 5 0))] ∧
      (sortAsc "rewardGrade" ((run calmEnv busyStore).db.event_rewards.filter
          (matchesEq ["eventId", "$id"] s.eventId))).Perm
        ((run calmEnv busyStore).db.event_rewards.filter (matchesEq ["eventId", "$id"] s.eventId)) :=
  summary_accurate calmEnv busyStore calmEnv_faultFree

end InitEventData
